import Mathlib

/-!
Verification of the `run_mriqc` HTTP handler of `azure_mriqc_server.py`.

The handler is a single sequential function: validate the uploaded archive
field, wipe and recreate two fixed scratch directories, save and extract the
archive, locate the first top-level directory, invoke a container runtime on
it, and on success pack the output directory into an archive and return it.

The embedding below models the handler as a pure state-passing function.
External collaborators (the zip codec, the filesystem scratch directories and
the container tool) are modelled explicitly; the container tool is a parameter
so that theorems can quantify over stubbed tools, and the handler additionally
returns the list of commands it passed to the tool so that theorems can speak
about which invocations happened.
-/

namespace Mriqc

/-- One file inside an archive or a directory tree: a relative
slash-separated path together with its byte content (modelled as `String`). -/
structure FileEntry where
  path : String
  content : String
deriving DecidableEq, Repr

/-- Modelled external archive codec (Python `zipfile` / `shutil.make_archive`):
an archive is represented by its list of entries; the codec is lossless. -/
structure ZipArchive where
  entries : List FileEntry
deriving DecidableEq, Repr

/-- Pack a directory's files into one archive
(`shutil.make_archive(..., format="zip", root_dir=OUTPUT_FOLDER)`). -/
def pack (files : List FileEntry) : ZipArchive := ⟨files⟩

/-- Decode an archive back into its files (client-side unzip of the body). -/
def unpack (z : ZipArchive) : List FileEntry := z.entries

/-- An immediate child of a directory as seen by `Path(...).iterdir()`:
its name and whether it is a directory. -/
structure DirEntry where
  name : String
  isDir : Bool
deriving DecidableEq, Repr

/-- An uploaded multipart file part (werkzeug `FileStorage`): the client's
filename and the archive content.  A `FileStorage` is falsy exactly when its
filename is empty, which the source's `if not bids_zip` check relies on. -/
structure FilePart where
  filename : String
  content : ZipArchive
deriving DecidableEq, Repr

/-- The inbound POST request: `request.files.get("bids_zip")` and
`request.form.get("participant_label")`. -/
structure Request where
  bids_zip : Option FilePart
  participant_label : Option String
deriving DecidableEq, Repr

/-- Result of running the container tool (`subprocess.run(cmd)`): exit code,
captured standard error, and the files the tool wrote into its `/out` mount. -/
structure ToolResult where
  returncode : Int
  stderr : String
  outputFiles : List FileEntry
deriving DecidableEq, Repr

/-- The environment: the container runtime, as a function from the argument
vector to the process result.  It is deterministic by construction, matching
the spec's "deterministic stubbed external tool". -/
structure Env where
  tool : List String → ToolResult

/-- The mutable filesystem state the handler touches: the two scratch
directories (`none` = directory does not exist) and the result-archive path.
The upload directory is tracked by its immediate children, the output
directory by the files the tool wrote into it. -/
structure FS where
  upload : Option (List DirEntry)
  output : Option (List FileEntry)
  resultZip : Option ZipArchive
deriving DecidableEq, Repr

/-- Response body: one of the two JSON error shapes the handler produces, or
a binary archive download (`send_file`). -/
inductive Body where
  | jsonError (error : String)
  | jsonErrorStderr (error : String) (stderr : String)
  | zipFile (z : ZipArchive)
deriving DecidableEq, Repr

/-- An HTTP response: status code and body. -/
structure Response where
  status : Nat
  body : Body
deriving DecidableEq, Repr

/-- Handler outcome: final filesystem state, the response, and the list of
argument vectors passed to the container runtime (empty or a singleton). -/
structure RunOut where
  fs : FS
  resp : Response
  calls : List (List String)
deriving DecidableEq, Repr

/-- Model of `shutil.rmtree(path, ignore_errors=True)`: removes the
directory tree; a missing directory is not an error. -/
def rmtree_ignore_errors (_d : Option (List α)) : Option (List α) := none

/-- Model of `os.makedirs(path, exist_ok=True)`: creates the directory if
missing, leaves it alone if present. -/
def makedirs_exist_ok (d : Option (List α)) : Option (List α) :=
  match d with
  | none => some []
  | some l => some l

def UPLOAD_FOLDER : String := "/tmp/mriqc_upload"
def OUTPUT_FOLDER : String := "/tmp/mriqc_output"

/-- The top-level name of a slash-separated archive entry path:
the characters before the first slash. -/
def topName (p : String) : String := String.mk (p.data.takeWhile (· ≠ '/'))

/-- Whether an archive entry path lies below a top-level directory
(it contains a slash, so extracting it creates that directory). -/
def isNestedPath (p : String) : Bool := p.data.contains '/'

/-- The immediate children `zipfile.ZipFile.extractall` creates in the target
directory: one child per distinct top-level name, a directory exactly when
some entry lies below it.  `iterdir` order on a real filesystem is
unspecified; this model fixes one enumeration order. -/
def topChildren (paths : List String) : List DirEntry :=
  (paths.map topName).dedup.map (fun n =>
    ⟨n, paths.any (fun p => topName p == n && isNestedPath p)⟩)

/-- The upload directory's immediate children after step 3 (save the archive
as `bids_data.zip`) and step 4 (extract it in place). -/
def uploadListing (z : ZipArchive) : List DirEntry :=
  ⟨"bids_data.zip", false⟩ :: topChildren (z.entries.map FileEntry.path)

/-- The argument vector of source lines 74-83: `docker run --rm` with a
read-only bind mount of the BIDS root at `/data`, a bind mount of the output
directory at `/out`, the pinned image, the two container-side paths, the
`participant` subcommand, the label filter, and the modality selectors. -/
def mriqcCmd (bidsRootAbs outAbs subj_id : String) : List String :=
  ["docker", "run", "--rm",
   "-v", bidsRootAbs ++ ":/data:ro",
   "-v", outAbs ++ ":/out",
   "nipreps/mriqc:22.0.6",
   "/data", "/out",
   "participant",
   "--participant_label", subj_id,
   "-m", "T1w", "T2w", "bold"]

/-- The part of the argument vector before the participant label. -/
def cmdBeforeLabel (bidsRootAbs outAbs : String) : List String :=
  ["docker", "run", "--rm",
   "-v", bidsRootAbs ++ ":/data:ro",
   "-v", outAbs ++ ":/out",
   "nipreps/mriqc:22.0.6",
   "/data", "/out",
   "participant",
   "--participant_label"]

/-- The part of the argument vector after the participant label. -/
def cmdAfterLabel : List String := ["-m", "T1w", "T2w", "bold"]

/-- The `run_mriqc` handler (source lines 32-102), as a pure function from
environment, filesystem state and request to the handler outcome. -/
def run_mriqc (env : Env) (fs : FS) (req : Request) : RunOut :=
  let subj_id := req.participant_label.getD "01"
  match req.bids_zip with
  | none => ⟨fs, ⟨400, Body.jsonError "No BIDS zip provided"⟩, []⟩
  | some bids_zip =>
    if bids_zip.filename = "" then
      ⟨fs, ⟨400, Body.jsonError "No BIDS zip provided"⟩, []⟩
    else
      let upload1 := makedirs_exist_ok (rmtree_ignore_errors fs.upload)
      let output1 := makedirs_exist_ok (rmtree_ignore_errors fs.output)
      let listing := upload1.getD [] ++ uploadListing bids_zip.content
      match List.find? (fun e => e.isDir) listing with
      | none =>
        ⟨⟨some listing, output1, fs.resultZip⟩,
         ⟨400, Body.jsonError "No BIDS directory found after unzipping."⟩, []⟩
      | some bids_root =>
        let cmd := mriqcCmd (UPLOAD_FOLDER ++ "/" ++ bids_root.name)
                     OUTPUT_FOLDER subj_id
        let run_result := env.tool cmd
        let output2 := output1.getD [] ++ run_result.outputFiles
        if run_result.returncode ≠ 0 then
          ⟨⟨some listing, some output2, fs.resultZip⟩,
           ⟨500, Body.jsonErrorStderr "MRIQC failed" run_result.stderr⟩, [cmd]⟩
        else
          let result_zip := pack output2
          ⟨⟨some listing, some output2, some result_zip⟩,
           ⟨200, Body.zipFile result_zip⟩, [cmd]⟩

/-! Concrete stubs used to witness the theorems on closed inputs. -/

/-- A stubbed external tool that exits 0 and writes one known report file. -/
def toolOk : List String → ToolResult :=
  fun _ => ⟨0, "", [⟨"sub-01_T1w.html", "report"⟩]⟩

/-- A stubbed external tool that exits 1 with captured text "boom". -/
def toolBoom : List String → ToolResult := fun _ => ⟨1, "boom", []⟩

def envOk : Env := ⟨toolOk⟩

def envBoom : Env := ⟨toolBoom⟩

/-- Initial filesystem state: neither scratch directory exists. -/
def fs0 : FS := ⟨none, none, none⟩

/-- An archive whose entries sit below a single top-level directory. -/
def zOneDir : ZipArchive := ⟨[⟨"sub-01/anat/t1.nii", "d"⟩]⟩

def fpOneDir : FilePart := ⟨"bids.zip", zOneDir⟩

/-- An archive whose entries are all top-level files (no directory). -/
def zFlat : ZipArchive := ⟨[⟨"README.txt", "hi"⟩]⟩

def fpFlat : FilePart := ⟨"bids.zip", zFlat⟩

/-! Helper lemmas. -/

/-- Finding the first element satisfying a predicate returns the head of the
filtered list. -/
theorem find?_filter_head (p : α → Bool) (l : List α) :
    l.find? p = (l.filter p).head? := by
  induction l with
  | nil => rfl
  | cons a l ih =>
    cases h : p a with
    | true => rw [List.find?_cons_of_pos l h, List.filter_cons_of_pos h]; rfl
    | false =>
      have h2 : ¬ p a := by simp [h]
      rw [List.find?_cons_of_neg l h2, List.filter_cons_of_neg h2, ih]

/-- The response of `run_mriqc` does not depend on the initial filesystem
state: validation failures ignore it, and both scratch directories are wiped
and recreated before anything is saved or extracted. -/
theorem resp_ignores_fs (env : Env) (fs1 fs2 : FS) (req : Request) :
    (run_mriqc env fs1 req).resp = (run_mriqc env fs2 req).resp := by
  obtain ⟨bz, lbl⟩ := req
  cases bz with
  | none => rfl
  | some fp =>
    by_cases h : fp.filename = ""
    · simp [run_mriqc, h]
    · cases hfind : List.find? (fun e => e.isDir) (uploadListing fp.content) with
      | none =>
        simp [run_mriqc, h, rmtree_ignore_errors, makedirs_exist_ok, hfind]
      | some root =>
        by_cases hr :
            (env.tool (mriqcCmd (UPLOAD_FOLDER ++ "/" ++ root.name) OUTPUT_FOLDER
              (lbl.getD "01"))).returncode = 0 <;>
          simp [run_mriqc, h, rmtree_ignore_errors, makedirs_exist_ok, hfind, hr]

/-- Whenever the directory scan finds a BIDS root, the handler performs
exactly one tool invocation, with the command of `mriqcCmd`. -/
theorem calls_eq_of_found (env : Env) (fs : FS) (fp : FilePart)
    (lbl : Option String) (root : DirEntry)
    (hfn : fp.filename ≠ "")
    (hroot : List.find? (fun e => e.isDir) (uploadListing fp.content) =
      some root) :
    (run_mriqc env fs ⟨some fp, lbl⟩).calls =
      [mriqcCmd (UPLOAD_FOLDER ++ "/" ++ root.name) OUTPUT_FOLDER
        (lbl.getD "01")] := by
  by_cases hr :
      (env.tool (mriqcCmd (UPLOAD_FOLDER ++ "/" ++ root.name) OUTPUT_FOLDER
        (lbl.getD "01"))).returncode = 0 <;>
    simp [run_mriqc, hfn, rmtree_ignore_errors, makedirs_exist_ok, hroot, hr]

/-! Claim theorems. -/

/-- Claim C2: when the request carries no `bids_zip` part at all, the handler
responds 400 with JSON error "No BIDS zip provided", leaves the filesystem
state exactly as it was (no workspace reset, no save, no extraction), and
invokes the external tool zero times. -/
theorem c2_missing_zip_rejected (env : Env) (fs : FS) (lbl : Option String) :
    run_mriqc env fs ⟨none, lbl⟩ =
      ⟨fs, ⟨400, Body.jsonError "No BIDS zip provided"⟩, []⟩ := rfl

/-- Claim C10: a `bids_zip` part whose filename is empty is falsy, so the
handler treats it exactly like a missing part: 400 with JSON error
"No BIDS zip provided", untouched filesystem, and no tool invocation. -/
theorem c10_falsy_zip_rejected (env : Env) (fs : FS) (z : ZipArchive)
    (lbl : Option String) :
    run_mriqc env fs ⟨some ⟨"", z⟩, lbl⟩ =
      ⟨fs, ⟨400, Body.jsonError "No BIDS zip provided"⟩, []⟩ ∧
    run_mriqc env fs ⟨some ⟨"", z⟩, lbl⟩ = run_mriqc env fs ⟨none, lbl⟩ :=
  ⟨rfl, rfl⟩

/-- Claim C3: when the extracted upload workspace has no directory among its
immediate children, the handler responds 400 with JSON error
"No BIDS directory found after unzipping." and never invokes the tool; the
workspaces hold the freshly extracted listing and an empty output dir. -/
theorem c3_no_dir_rejected (env : Env) (fs : FS) (fp : FilePart)
    (lbl : Option String)
    (hfn : fp.filename ≠ "")
    (hnodir : ∀ e ∈ uploadListing fp.content, e.isDir = false) :
    run_mriqc env fs ⟨some fp, lbl⟩ =
      ⟨⟨some (uploadListing fp.content), some [], fs.resultZip⟩,
       ⟨400, Body.jsonError "No BIDS directory found after unzipping."⟩,
       []⟩ := by
  have hfind :
      List.find? (fun e => e.isDir) (uploadListing fp.content) = none := by
    rw [List.find?_eq_none]
    intro e he
    simpa using hnodir e he
  simp [run_mriqc, hfn, rmtree_ignore_errors, makedirs_exist_ok, hfind]

/-- Witness for C3 on a concrete flat archive. -/
theorem c3_no_dir_rejected_witness :
    fpFlat.filename ≠ "" ∧
    (∀ e ∈ uploadListing fpFlat.content, e.isDir = false) ∧
    run_mriqc envOk fs0 ⟨some fpFlat, none⟩ =
      ⟨⟨some (uploadListing fpFlat.content), some [], fs0.resultZip⟩,
       ⟨400, Body.jsonError "No BIDS directory found after unzipping."⟩,
       []⟩ :=
  ⟨by decide, by decide,
   c3_no_dir_rejected envOk fs0 fpFlat none (by decide) (by decide)⟩

/-- Claim C1: for an archive extracting to exactly one top-level directory
and a tool that exits 0, the handler responds 200, the output workspace holds
exactly the files the tool wrote, and the response body is the packed output
workspace, whose decoding reproduces those files (pack-then-unpack identity). -/
theorem c1_success_roundtrip (env : Env) (fs : FS) (fp : FilePart)
    (lbl : Option String) (root : DirEntry)
    (hfn : fp.filename ≠ "")
    (hone : (uploadListing fp.content).filter (fun e => e.isDir) = [root])
    (hexit : ∀ c, (env.tool c).returncode = 0) :
    (run_mriqc env fs ⟨some fp, lbl⟩).resp.status = 200 ∧
    ∃ wrote, (run_mriqc env fs ⟨some fp, lbl⟩).fs.output = some wrote ∧
      (run_mriqc env fs ⟨some fp, lbl⟩).resp.body = Body.zipFile (pack wrote) ∧
      unpack (pack wrote) = wrote := by
  have hfind :
      List.find? (fun e => e.isDir) (uploadListing fp.content) = some root := by
    rw [find?_filter_head, hone]
    rfl
  refine ⟨?_, (env.tool (mriqcCmd (UPLOAD_FOLDER ++ "/" ++ root.name)
      OUTPUT_FOLDER (lbl.getD "01"))).outputFiles, ?_, ?_, rfl⟩ <;>
    simp [run_mriqc, hfn, rmtree_ignore_errors, makedirs_exist_ok, hfind,
      hexit, pack, unpack]

/-- Witness for C1 on a concrete one-directory archive and an exit-0 stub. -/
theorem c1_success_roundtrip_witness :
    fpOneDir.filename ≠ "" ∧
    (uploadListing fpOneDir.content).filter (fun e => e.isDir) =
      [⟨"sub-01", true⟩] ∧
    (∀ c, (envOk.tool c).returncode = 0) ∧
    ((run_mriqc envOk fs0 ⟨some fpOneDir, none⟩).resp.status = 200 ∧
     ∃ wrote, (run_mriqc envOk fs0 ⟨some fpOneDir, none⟩).fs.output = some wrote ∧
       (run_mriqc envOk fs0 ⟨some fpOneDir, none⟩).resp.body =
         Body.zipFile (pack wrote) ∧
       unpack (pack wrote) = wrote) :=
  ⟨by decide, by decide, fun _ => rfl,
   c1_success_roundtrip envOk fs0 fpOneDir none ⟨"sub-01", true⟩
     (by decide) (by decide) (fun _ => rfl)⟩

/-- Claim C4: when the tool exits nonzero, the handler responds 500 with JSON
error "MRIQC failed" carrying the tool's captured standard error, and does not
pack a result archive (the result-archive path is left untouched). -/
theorem c4_tool_failure (env : Env) (fs : FS) (fp : FilePart)
    (lbl : Option String) (root : DirEntry)
    (hfn : fp.filename ≠ "")
    (hroot : List.find? (fun e => e.isDir) (uploadListing fp.content) =
      some root)
    (hfail : ∀ c, (env.tool c).returncode ≠ 0) :
    (run_mriqc env fs ⟨some fp, lbl⟩).resp =
      ⟨500, Body.jsonErrorStderr "MRIQC failed"
        (env.tool (mriqcCmd (UPLOAD_FOLDER ++ "/" ++ root.name) OUTPUT_FOLDER
          (lbl.getD "01"))).stderr⟩ ∧
    (run_mriqc env fs ⟨some fp, lbl⟩).fs.resultZip = fs.resultZip := by
  constructor <;>
    simp [run_mriqc, hfn, rmtree_ignore_errors, makedirs_exist_ok, hroot,
      hfail]

/-- Witness for C4 on a concrete archive and an exit-1 stub with stderr
"boom". -/
theorem c4_tool_failure_witness :
    fpOneDir.filename ≠ "" ∧
    List.find? (fun e => e.isDir) (uploadListing fpOneDir.content) =
      some ⟨"sub-01", true⟩ ∧
    (∀ c, (envBoom.tool c).returncode ≠ 0) ∧
    ((run_mriqc envBoom fs0 ⟨some fpOneDir, none⟩).resp =
      ⟨500, Body.jsonErrorStderr "MRIQC failed"
        (envBoom.tool (mriqcCmd (UPLOAD_FOLDER ++ "/" ++ (⟨"sub-01", true⟩ :
          DirEntry).name) OUTPUT_FOLDER ((none : Option String).getD "01"))).stderr⟩ ∧
     (run_mriqc envBoom fs0 ⟨some fpOneDir, none⟩).fs.resultZip =
       fs0.resultZip) :=
  ⟨by decide, by decide, fun _ => by simp [envBoom, toolBoom],
   c4_tool_failure envBoom fs0 fpOneDir none ⟨"sub-01", true⟩
     (by decide) (by decide) (fun _ => by simp [envBoom, toolBoom])⟩

/-- Claim C5: every request that reaches the tool-invocation step invokes the
container runtime exactly once, with the fixed-shape argument vector of the
source: `docker run --rm`, a read-only bind mount of the discovered input
root at `/data`, a bind mount of the output workspace at `/out`, the pinned
image `nipreps/mriqc:22.0.6`, the two container-side paths, the `participant`
subcommand, the label filter with the caller's identifier, and the modality
selectors `T1w T2w bold`. -/
theorem c5_cmd_shape (env : Env) (fs : FS) (fp : FilePart)
    (lbl : Option String) (root : DirEntry)
    (hfn : fp.filename ≠ "")
    (hroot : List.find? (fun e => e.isDir) (uploadListing fp.content) =
      some root) :
    (run_mriqc env fs ⟨some fp, lbl⟩).calls =
      [["docker", "run", "--rm",
        "-v", UPLOAD_FOLDER ++ "/" ++ root.name ++ ":/data:ro",
        "-v", OUTPUT_FOLDER ++ ":/out",
        "nipreps/mriqc:22.0.6",
        "/data", "/out",
        "participant",
        "--participant_label", lbl.getD "01",
        "-m", "T1w", "T2w", "bold"]] := by
  rw [calls_eq_of_found env fs fp lbl root hfn hroot]
  rfl

/-- Witness for C5 on a concrete request reaching the invocation step. -/
theorem c5_cmd_shape_witness :
    fpOneDir.filename ≠ "" ∧
    List.find? (fun e => e.isDir) (uploadListing fpOneDir.content) =
      some ⟨"sub-01", true⟩ ∧
    (run_mriqc envOk fs0 ⟨some fpOneDir, some "07"⟩).calls =
      [["docker", "run", "--rm",
        "-v", UPLOAD_FOLDER ++ "/" ++ (⟨"sub-01", true⟩ : DirEntry).name ++
          ":/data:ro",
        "-v", OUTPUT_FOLDER ++ ":/out",
        "nipreps/mriqc:22.0.6",
        "/data", "/out",
        "participant",
        "--participant_label", (some "07").getD "01",
        "-m", "T1w", "T2w", "bold"]] :=
  ⟨by decide, by decide,
   c5_cmd_shape envOk fs0 fpOneDir (some "07") ⟨"sub-01", true⟩
     (by decide) (by decide)⟩

/-- Claim C6: with the archive payload present (truthy), both workspaces are
deleted (a missing directory is not an error: deletion maps any state,
existing or absent, to absent) and recreated empty before anything is saved
or extracted; consequently the whole run is independent of whatever a prior
request left in the workspaces. -/
theorem c6_reset_isolates (env : Env) (fs1 fs2 : FS) (fp : FilePart)
    (lbl : Option String)
    (hfn : fp.filename ≠ "") (hrz : fs1.resultZip = fs2.resultZip) :
    rmtree_ignore_errors fs1.upload = none ∧
    makedirs_exist_ok (rmtree_ignore_errors fs1.upload) = some [] ∧
    rmtree_ignore_errors fs1.output = none ∧
    makedirs_exist_ok (rmtree_ignore_errors fs1.output) = some [] ∧
    run_mriqc env fs1 ⟨some fp, lbl⟩ = run_mriqc env fs2 ⟨some fp, lbl⟩ := by
  refine ⟨rfl, rfl, rfl, rfl, ?_⟩
  simp [run_mriqc, rmtree_ignore_errors, makedirs_exist_ok, hfn, hrz]

/-- Witness for C6: two different stale filesystem states produce the same
run. -/
theorem c6_reset_isolates_witness :
    fpOneDir.filename ≠ "" ∧
    (FS.mk (some [⟨"stale", true⟩]) (some [⟨"old.html", "x"⟩]) none).resultZip =
      fs0.resultZip ∧
    (rmtree_ignore_errors
        (FS.mk (some [⟨"stale", true⟩]) (some [⟨"old.html", "x"⟩]) none).upload =
      none ∧
     makedirs_exist_ok (rmtree_ignore_errors
        (FS.mk (some [⟨"stale", true⟩]) (some [⟨"old.html", "x"⟩]) none).upload) =
      some [] ∧
     rmtree_ignore_errors
        (FS.mk (some [⟨"stale", true⟩]) (some [⟨"old.html", "x"⟩]) none).output =
      none ∧
     makedirs_exist_ok (rmtree_ignore_errors
        (FS.mk (some [⟨"stale", true⟩]) (some [⟨"old.html", "x"⟩]) none).output) =
      some [] ∧
     run_mriqc envOk (FS.mk (some [⟨"stale", true⟩]) (some [⟨"old.html", "x"⟩])
        none) ⟨some fpOneDir, none⟩ =
       run_mriqc envOk fs0 ⟨some fpOneDir, none⟩) :=
  ⟨by decide, by decide,
   c6_reset_isolates envOk
     (FS.mk (some [⟨"stale", true⟩]) (some [⟨"old.html", "x"⟩]) none) fs0
     fpOneDir none (by decide) (by decide)⟩

/-- Claim C7: when the request omits `participant_label`, the external tool
is invoked with label-filter value "01". -/
theorem c7_default_label (env : Env) (fs : FS) (fp : FilePart)
    (root : DirEntry)
    (hfn : fp.filename ≠ "")
    (hroot : List.find? (fun e => e.isDir) (uploadListing fp.content) =
      some root) :
    (run_mriqc env fs ⟨some fp, none⟩).calls =
      [mriqcCmd (UPLOAD_FOLDER ++ "/" ++ root.name) OUTPUT_FOLDER "01"] :=
  calls_eq_of_found env fs fp none root hfn hroot

/-- Witness for C7 on a concrete request without `participant_label`. -/
theorem c7_default_label_witness :
    fpOneDir.filename ≠ "" ∧
    List.find? (fun e => e.isDir) (uploadListing fpOneDir.content) =
      some ⟨"sub-01", true⟩ ∧
    (run_mriqc envOk fs0 ⟨some fpOneDir, none⟩).calls =
      [mriqcCmd (UPLOAD_FOLDER ++ "/" ++ (⟨"sub-01", true⟩ : DirEntry).name)
        OUTPUT_FOLDER "01"] :=
  ⟨by decide, by decide,
   c7_default_label envOk fs0 fpOneDir ⟨"sub-01", true⟩ (by decide)
     (by decide)⟩

/-- Claim C8: issuing the same request twice in sequence, with the second run
starting from the filesystem state the first run left behind, produces an
identical response (in particular a byte-identical success body), because the
workspaces are fully reset at the start of each run. -/
theorem c8_idempotent_resp (env : Env) (fs : FS) (req : Request)
    (_h200 : (run_mriqc env fs req).resp.status = 200) :
    (run_mriqc env (run_mriqc env fs req).fs req).resp =
      (run_mriqc env fs req).resp :=
  resp_ignores_fs env (run_mriqc env fs req).fs fs req

/-- Witness for C8 on a concrete successful request run twice. -/
theorem c8_idempotent_resp_witness :
    (run_mriqc envOk fs0 ⟨some fpOneDir, none⟩).resp.status = 200 ∧
    (run_mriqc envOk (run_mriqc envOk fs0 ⟨some fpOneDir, none⟩).fs
        ⟨some fpOneDir, none⟩).resp =
      (run_mriqc envOk fs0 ⟨some fpOneDir, none⟩).resp :=
  ⟨by decide,
   c8_idempotent_resp envOk fs0 ⟨some fpOneDir, none⟩ (by decide)⟩

/-- Claim C9: the caller-supplied participant label enters the tool's
argument vector as a single discrete array element: the invoked command is a
fixed list before the label, then the label itself verbatim as one element,
then a fixed list after it, with both surrounding lists independent of the
label.  The command is an argument array handed to the process runner, never
a shell command string. -/
theorem c9_label_single_argument (env : Env) (fs : FS) (fp : FilePart)
    (lbl : String) (root : DirEntry)
    (hfn : fp.filename ≠ "")
    (hroot : List.find? (fun e => e.isDir) (uploadListing fp.content) =
      some root) :
    (run_mriqc env fs ⟨some fp, some lbl⟩).calls =
      [cmdBeforeLabel (UPLOAD_FOLDER ++ "/" ++ root.name) OUTPUT_FOLDER ++
        [lbl] ++ cmdAfterLabel] := by
  rw [calls_eq_of_found env fs fp (some lbl) root hfn hroot]
  rfl

/-- Witness for C9 with a label full of shell metacharacters, which still
lands as exactly one argument-vector element. -/
theorem c9_label_single_argument_witness :
    fpOneDir.filename ≠ "" ∧
    List.find? (fun e => e.isDir) (uploadListing fpOneDir.content) =
      some ⟨"sub-01", true⟩ ∧
    (run_mriqc envOk fs0 ⟨some fpOneDir, some "01; rm -rf / | $(x)"⟩).calls =
      [cmdBeforeLabel (UPLOAD_FOLDER ++ "/" ++ (⟨"sub-01", true⟩ :
          DirEntry).name) OUTPUT_FOLDER ++
        ["01; rm -rf / | $(x)"] ++ cmdAfterLabel] :=
  ⟨by decide, by decide,
   c9_label_single_argument envOk fs0 fpOneDir "01; rm -rf / | $(x)"
     ⟨"sub-01", true⟩ (by decide) (by decide)⟩

end Mriqc
